import Mathlib

/-!
Verification of the `FinancialModels` class of `WACC_TerminalGrowth_Model.py`.

The Python code computes closed-form corporate-finance formulas over floats
and numpy arrays.  We embed the arithmetic over `ℚ` (exact rationals): every
formula in the source is a pure rational expression, so the idealised
real-arithmetic content of the spec is captured exactly.

Python raises `ZeroDivisionError` on scalar division by zero; numpy raises
`ValueError` when a reduction (`np.min` / `np.max`) is applied to a
zero-size array.  Fallible operations are therefore embedded as
`Except PyError`.  (numpy *elementwise* division by zero does not raise; it
yields IEEE inf/nan — those paths are excluded by the nonzero-denominator
hypotheses of the claims, and `ℚ`'s `x / 0 = 0` convention is never reached
in any theorem below without such a hypothesis.)
-/

namespace FinancialModels

/-- Exceptions the Python code can raise on the modelled paths:
`ZeroDivisionError` from scalar division by zero, and numpy's
`ValueError` ("zero-size array to reduction operation ... which has no
identity") from `np.min`/`np.max` on an empty array. -/
inductive PyError where
  | zeroDivisionError : PyError
  | valueError : PyError
  deriving DecidableEq, Repr

/-- `calculate_wacc` (source lines 8–27):
`total_value = equity_value + debt_value`,
`equity_weight = equity_value / total_value`,
`debt_weight = debt_value / total_value`, returns
`equity_weight*cost_of_equity + debt_weight*cost_of_debt*(1 - tax_rate)`. -/
def calculate_wacc (equity_value debt_value cost_of_equity cost_of_debt tax_rate : ℚ) : ℚ :=
  let total_value := equity_value + debt_value
  let equity_weight := equity_value / total_value
  let debt_weight := debt_value / total_value
  (equity_weight * cost_of_equity) + (debt_weight * cost_of_debt * (1 - tax_rate))

/-- `calculate_cost_of_equity` (source lines 29–33): CAPM. -/
def calculate_cost_of_equity (risk_free_rate beta market_risk_premium : ℚ) : ℚ :=
  risk_free_rate + (beta * market_risk_premium)

/-- `calculate_terminal_growth_gdp` (source lines 35–47):
returns `(real_gdp_growth + inflation_rate) * adjustment_factor`, with
`adjustment_factor` defaulting to `1.0`. -/
def calculate_terminal_growth_gdp (real_gdp_growth inflation_rate : ℚ)
    (adjustment_factor : ℚ := 1) : ℚ :=
  (real_gdp_growth + inflation_rate) * adjustment_factor

/-- `calculate_terminal_growth_reinvestment` (source lines 49–60). -/
def calculate_terminal_growth_reinvestment (return_on_capital reinvestment_rate : ℚ) : ℚ :=
  return_on_capital * reinvestment_rate

/-- `calculate_terminal_value` (source lines 68–72), Gordon Growth Model:
`final_cash_flow * (1 + terminal_growth_rate) / (discount_rate - terminal_growth_rate)`.
Python float/int division raises `ZeroDivisionError` when the denominator is
zero, so the embedding returns `Except`. -/
def calculate_terminal_value (final_cash_flow terminal_growth_rate discount_rate : ℚ) :
    Except PyError ℚ :=
  if discount_rate - terminal_growth_rate = 0 then
    .error .zeroDivisionError
  else
    .ok (final_cash_flow * (1 + terminal_growth_rate) / (discount_rate - terminal_growth_rate))

/-- The growth-rate sequence of `historical_growth_analysis`, source line 86:
`(data[1:] - data[:-1]) / data[:-1]` — elementwise over the pairs
`(data[i], data[i+1])`. -/
def growth_rates (data : List ℚ) : List ℚ :=
  List.zipWith (fun prev next => (next - prev) / prev) data (data.drop 1)

/-- `np.mean`: sum divided by length. -/
def npMean (l : List ℚ) : ℚ :=
  l.sum / l.length

/-- `np.median`: sort; the middle element for odd length, the average of the
two middle elements for even length. -/
def npMedian (l : List ℚ) : ℚ :=
  let s := l.insertionSort (· ≤ ·)
  if l.length % 2 = 1 then
    s.getD (l.length / 2) 0
  else
    (s.getD (l.length / 2 - 1) 0 + s.getD (l.length / 2) 0) / 2

/-- The square of `np.std` (population variance): the mean of the squared
deviations from the mean, dividing by `N` (not `N - 1`).  `np.std` itself is
the nonnegative square root of this value, which is irrational in general
and hence not representable in `ℚ`; every statement about `std_dev` below is
phrased through this radicand, which determines `np.std` uniquely. -/
def npStdSq (l : List ℚ) : ℚ :=
  (l.map (fun x => (x - npMean l) ^ 2)).sum / l.length

/-- `np.min`: the least element of a nonempty array (the empty case never
reaches this function: `np.min []` raises, which `historical_growth_analysis`
models separately). -/
def npMin : List ℚ → ℚ
  | [] => 0
  | [x] => x
  | x :: y :: xs => min x (npMin (y :: xs))

/-- `np.max`: the greatest element of a nonempty array. -/
def npMax : List ℚ → ℚ
  | [] => 0
  | [x] => x
  | x :: y :: xs => max x (npMax (y :: xs))

/-- The dictionary returned by `historical_growth_analysis` (source lines
88–94).  The Python key `std_dev` holds `np.std(growth_rates)`; here the
field `std_dev_sq` holds its square (see `npStdSq`). -/
structure GrowthStats where
  mean_growth : ℚ
  median_growth : ℚ
  std_dev_sq : ℚ
  min_growth : ℚ
  max_growth : ℚ
  deriving DecidableEq, Repr

/-- `historical_growth_analysis` (source lines 74–94).  When
`historical_data` has fewer than 2 elements the growth-rate array is empty:
`np.mean`/`np.median`/`np.std` of an empty array only produce NaN with a
RuntimeWarning, but `np.min` then raises
`ValueError: zero-size array to reduction operation minimum which has no identity`,
so the whole call fails with that `ValueError`.  The `periods` parameter is
accepted (default 5) and never used, exactly as in the source. -/
def historical_growth_analysis (historical_data : List ℚ) (periods : ℕ := 5) :
    Except PyError GrowthStats :=
  let g := growth_rates historical_data
  if g.isEmpty then
    .error .valueError
  else
    .ok { mean_growth := npMean g
          median_growth := npMedian g
          std_dev_sq := npStdSq g
          min_growth := npMin g
          max_growth := npMax g }

/-! ### Basic lemmas about the statistics helpers -/

theorem npMin_mem : ∀ (l : List ℚ), l ≠ [] → npMin l ∈ l
  | [], h => absurd rfl h
  | [x], _ => by simp [npMin]
  | x :: y :: xs, _ => by
      show min x (npMin (y :: xs)) ∈ x :: y :: xs
      rcases le_total x (npMin (y :: xs)) with h | h
      · rw [min_eq_left h]
        exact List.mem_cons_self _ _
      · rw [min_eq_right h]
        exact List.mem_cons_of_mem _ (npMin_mem (y :: xs) (by simp))

theorem npMin_le : ∀ (l : List ℚ), ∀ x ∈ l, npMin l ≤ x
  | [], x, hx => absurd hx (by simp)
  | [y], x, hx => by
      have hxy : x = y := by simpa using hx
      subst hxy
      exact le_of_eq rfl
  | y :: z :: xs, x, hx => by
      show min y (npMin (z :: xs)) ≤ x
      rcases List.mem_cons.mp hx with h | h
      · subst h
        exact min_le_left _ _
      · exact le_trans (min_le_right _ _) (npMin_le (z :: xs) x h)

theorem npMax_mem : ∀ (l : List ℚ), l ≠ [] → npMax l ∈ l
  | [], h => absurd rfl h
  | [x], _ => by simp [npMax]
  | x :: y :: xs, _ => by
      show max x (npMax (y :: xs)) ∈ x :: y :: xs
      rcases le_total x (npMax (y :: xs)) with h | h
      · rw [max_eq_right h]
        exact List.mem_cons_of_mem _ (npMax_mem (y :: xs) (by simp))
      · rw [max_eq_left h]
        exact List.mem_cons_self _ _

theorem le_npMax : ∀ (l : List ℚ), ∀ x ∈ l, x ≤ npMax l
  | [], x, hx => absurd hx (by simp)
  | [y], x, hx => by
      have hxy : x = y := by simpa using hx
      subst hxy
      exact le_of_eq rfl
  | y :: z :: xs, x, hx => by
      show x ≤ max y (npMax (z :: xs))
      rcases List.mem_cons.mp hx with h | h
      · subst h
        exact le_max_left _ _
      · exact le_trans (le_npMax (z :: xs) x h) (le_max_right _ _)

theorem growth_rates_length (data : List ℚ) :
    (growth_rates data).length = data.length - 1 := by
  simp [growth_rates]

theorem growth_rates_eq_range_map (data : List ℚ) :
    growth_rates data = (List.range (data.length - 1)).map
      (fun i => (data.getD (i + 1) 0 - data.getD i 0) / data.getD i 0) := by
  induction data with
  | nil => rfl
  | cons x xs ih =>
    cases xs with
    | nil => rfl
    | cons y rest =>
      have hcons : growth_rates (x :: y :: rest) =
          (y - x) / x :: growth_rates (y :: rest) := by
        simp [growth_rates]
      rw [hcons, ih]
      have hlen : (x :: y :: rest).length - 1 = ((y :: rest).length - 1) + 1 := by
        simp
      rw [hlen, List.range_succ_eq_map, List.map_cons, List.map_map]
      simp [Function.comp]

theorem growth_rates_ne_nil (data : List ℚ) (h : 2 ≤ data.length) :
    growth_rates data ≠ [] := by
  intro hnil
  have := growth_rates_length data
  rw [hnil] at this
  simp only [List.length_nil] at this
  omega

theorem historical_growth_analysis_ok (data : List ℚ) (p : ℕ) (h : 2 ≤ data.length) :
    historical_growth_analysis data p =
      .ok { mean_growth := npMean (growth_rates data)
            median_growth := npMedian (growth_rates data)
            std_dev_sq := npStdSq (growth_rates data)
            min_growth := npMin (growth_rates data)
            max_growth := npMax (growth_rates data) } := by
  have hne : growth_rates data ≠ [] := growth_rates_ne_nil data h
  rw [historical_growth_analysis, if_neg (by simpa using hne)]

theorem npMedian_eq_of_sorted (l s : List ℚ) (hp : l.Perm s)
    (hs : s.Sorted (· ≤ ·)) :
    npMedian l = if s.length % 2 = 1 then s.getD (s.length / 2) 0
      else (s.getD (s.length / 2 - 1) 0 + s.getD (s.length / 2) 0) / 2 := by
  have hsort : l.insertionSort (· ≤ ·) = s :=
    List.eq_of_perm_of_sorted ((List.perm_insertionSort _ l).trans hp)
      (List.sorted_insertionSort _ l) hs
  have hlen : l.length = s.length := hp.length_eq
  rw [npMedian, hsort, hlen]

theorem npMin_le_npMean (l : List ℚ) (h : l ≠ []) : npMin l ≤ npMean l := by
  have hpos : 0 < l.length := List.length_pos.mpr h
  have hlen : 0 < (l.length : ℚ) := by exact_mod_cast hpos
  rw [npMean, le_div_iff₀ hlen]
  have hb := List.card_nsmul_le_sum l (npMin l) (npMin_le l)
  rw [nsmul_eq_mul] at hb
  rw [mul_comm]
  exact hb

theorem npMean_le_npMax (l : List ℚ) (h : l ≠ []) : npMean l ≤ npMax l := by
  have hpos : 0 < l.length := List.length_pos.mpr h
  have hlen : 0 < (l.length : ℚ) := by exact_mod_cast hpos
  rw [npMean, div_le_iff₀ hlen]
  have hb := List.sum_le_card_nsmul l (npMax l) (le_npMax l)
  rw [nsmul_eq_mul] at hb
  rw [mul_comm]
  exact hb

theorem npMedian_bounds (l : List ℚ) (h : l ≠ []) :
    npMin l ≤ npMedian l ∧ npMedian l ≤ npMax l := by
  have hp : (l.insertionSort (· ≤ ·)).Perm l := List.perm_insertionSort _ l
  have hlen : (l.insertionSort (· ≤ ·)).length = l.length := hp.length_eq
  have hpos : 0 < l.length := List.length_pos.mpr h
  have hmem : ∀ i, i < l.length → (l.insertionSort (· ≤ ·)).getD i 0 ∈ l := by
    intro i hi
    have hi' : i < (l.insertionSort (· ≤ ·)).length := by rw [hlen]; exact hi
    rw [List.getD_eq_getElem _ _ hi']
    exact hp.mem_iff.mp (List.getElem_mem hi')
  rw [npMedian]
  by_cases hpar : l.length % 2 = 1
  · rw [if_pos hpar]
    have hidx : l.length / 2 < l.length := Nat.div_lt_self hpos (by norm_num)
    exact ⟨npMin_le l _ (hmem _ hidx), le_npMax l _ (hmem _ hidx)⟩
  · rw [if_neg hpar]
    have hidx1 : l.length / 2 - 1 < l.length := by omega
    have hidx2 : l.length / 2 < l.length := Nat.div_lt_self hpos (by norm_num)
    have ha := hmem _ hidx1
    have hb := hmem _ hidx2
    constructor
    · have h1 := npMin_le l _ ha
      have h2 := npMin_le l _ hb
      linarith
    · have h1 := le_npMax l _ ha
      have h2 := le_npMax l _ hb
      linarith

/-! ### Claims -/

/-- C1: for `equity_value + debt_value ≠ 0`, `calculate_wacc` returns
`weight_equity*cost_of_equity + weight_debt*cost_of_debt*(1 - tax_rate)` with
`weight_equity = equity_value/(equity_value + debt_value)` and
`weight_debt = 1 - weight_equity`; and the spec's `1 - weight_equity` equals
the code's `debt_value/(equity_value + debt_value)`. -/
theorem calculate_wacc_spec (e d ce cd t : ℚ) (h : e + d ≠ 0) :
    calculate_wacc e d ce cd t =
      (e / (e + d)) * ce + (1 - e / (e + d)) * cd * (1 - t) ∧
    1 - e / (e + d) = d / (e + d) := by
  have h2 : 1 - e / (e + d) = d / (e + d) := by
    field_simp
  exact ⟨by rw [calculate_wacc, h2], h2⟩

theorem calculate_wacc_spec_witness :
    (1 : ℚ) + 1 ≠ 0 ∧
    (calculate_wacc 1 1 (1/10) (1/20) (1/4) =
      ((1 : ℚ) / (1 + 1)) * (1/10) + (1 - (1 : ℚ) / (1 + 1)) * (1/20) * (1 - 1/4) ∧
    1 - (1 : ℚ) / (1 + 1) = (1 : ℚ) / (1 + 1)) :=
  ⟨by norm_num, calculate_wacc_spec 1 1 (1/10) (1/20) (1/4) (by norm_num)⟩

/-- C4: `historical_growth_analysis` never reads its `periods` parameter, so
the result is identical for any two values of it. -/
theorem historical_growth_analysis_periods_irrelevant
    (historical_data : List ℚ) (p1 p2 : ℕ) :
    historical_growth_analysis historical_data p1 =
      historical_growth_analysis historical_data p2 := rfl

/-- C5: `calculate_terminal_value` returns
`final_cash_flow*(1 + terminal_growth_rate)/(discount_rate - terminal_growth_rate)`
when `discount_rate ≠ terminal_growth_rate`, and fails with
`ZeroDivisionError` when they are equal. -/
theorem calculate_terminal_value_spec (f g r : ℚ) :
    (r ≠ g → calculate_terminal_value f g r = .ok (f * (1 + g) / (r - g))) ∧
    calculate_terminal_value f g g = .error .zeroDivisionError := by
  constructor
  · intro h
    rw [calculate_terminal_value, if_neg (sub_ne_zero.mpr h)]
  · rw [calculate_terminal_value, if_pos (sub_self g)]

theorem calculate_terminal_value_spec_witness :
    calculate_terminal_value 100 (3/100) (8/100) =
      .ok (100 * (1 + 3/100) / (8/100 - 3/100)) ∧
    calculate_terminal_value 100 (3/100) (3/100) = .error .zeroDivisionError :=
  ⟨(calculate_terminal_value_spec 100 (3/100) (8/100)).1 (by norm_num),
   (calculate_terminal_value_spec 100 (3/100) (3/100)).2⟩

/-- C7 counterexample: at the spec's own example input, `calculate_wacc`
does not equal `0.0792`; the exact value is `19/240 = 0.0791666…`. -/
theorem calculate_wacc_example_ne_00792 :
    calculate_wacc 1000000 500000 (10/100) (5/100) (25/100) ≠ 792/10000 := by
  norm_num [calculate_wacc]

/-- C7 (amended): `calculate_wacc(1000000, 500000, 0.10, 0.05, 0.25)` equals
`0.10*(2/3) + 0.05*0.75*(1/3) = 19/240 ≈ 0.0792`, i.e. it equals `0.0792`
only after rounding to four decimal places (it is within `10⁻⁴` of it), not
exactly. -/
theorem calculate_wacc_example :
    calculate_wacc 1000000 500000 (10/100) (5/100) (25/100) =
      (10/100) * (2/3) + (5/100) * (75/100) * (1/3) ∧
    calculate_wacc 1000000 500000 (10/100) (5/100) (25/100) = 19/240 ∧
    |calculate_wacc 1000000 500000 (10/100) (5/100) (25/100) - 792/10000|
      < 1/10000 := by
  refine ⟨by norm_num [calculate_wacc], by norm_num [calculate_wacc], ?_⟩
  rw [show calculate_wacc 1000000 500000 (10/100) (5/100) (25/100) = 19/240 by
        norm_num [calculate_wacc]]
  rw [abs_lt]
  norm_num

/-- C8: `calculate_terminal_growth_gdp` returns
`(real_gdp_growth + inflation_rate) * adjustment_factor`, the omitted
`adjustment_factor` defaults to `1.0`, the result is linear in
`adjustment_factor`, and the spec's two numeric examples hold. -/
theorem calculate_terminal_growth_gdp_spec :
    (∀ g i a : ℚ, calculate_terminal_growth_gdp g i a = (g + i) * a) ∧
    (∀ g i : ℚ, calculate_terminal_growth_gdp g i = (g + i) * 1) ∧
    (∀ g i a : ℚ, calculate_terminal_growth_gdp g i a =
      a * calculate_terminal_growth_gdp g i) ∧
    calculate_terminal_growth_gdp (2/100) (15/1000) = 35/1000 ∧
    calculate_terminal_growth_gdp (2/100) (15/1000) 2 = 7/100 := by
  refine ⟨fun g i a => rfl, fun g i => rfl, fun g i a => ?_,
    by norm_num [calculate_terminal_growth_gdp],
    by norm_num [calculate_terminal_growth_gdp]⟩
  rw [calculate_terminal_growth_gdp, calculate_terminal_growth_gdp]
  ring

/-- C9: `calculate_wacc` is invariant under rescaling the capital structure
by any nonzero factor `k`. -/
theorem calculate_wacc_scale_invariant (k e d ce cd t : ℚ)
    (hk : k ≠ 0) (h : e + d ≠ 0) :
    calculate_wacc (k * e) (k * d) ce cd t = calculate_wacc e d ce cd t := by
  rw [calculate_wacc, calculate_wacc]
  have hsum : k * e + k * d = k * (e + d) := by ring
  rw [hsum, mul_div_mul_left e (e + d) hk, mul_div_mul_left d (e + d) hk]

theorem calculate_wacc_scale_invariant_witness :
    (3 : ℚ) ≠ 0 ∧ (2 : ℚ) + 1 ≠ 0 ∧
    calculate_wacc (3 * 2) (3 * 1) (1/10) (1/20) (1/4) =
      calculate_wacc 2 1 (1/10) (1/20) (1/4) :=
  ⟨by norm_num, by norm_num,
   calculate_wacc_scale_invariant 3 2 1 (1/10) (1/20) (1/4) (by norm_num) (by norm_num)⟩

/-- C3: on a single-element input the code does *not* fail with a typed
"insufficient data" error: the empty growth-rate array reaches `np.min`,
which raises numpy's generic `ValueError` for a zero-size reduction. -/
theorem historical_growth_analysis_single_raises_valueError :
    historical_growth_analysis [5] 5 = .error .valueError := rfl

/-- C2: for data of length ≥ 2 whose first `n-1` elements are nonzero,
`historical_growth_analysis` succeeds and its keys are the arithmetic mean,
the median (characterised against *any* sorted permutation of the growth
sequence), the population variance (dividing by `N`, not `N-1`; the `std_dev`
key of the code is the square root of the `std_dev_sq` field), the minimum
and the maximum of the growth sequence
`growth[i] = (data[i+1] - data[i]) / data[i]`, `i ∈ [0, n-2]`. -/
theorem historical_growth_analysis_spec (data : List ℚ) (p : ℕ)
    (hlen : 2 ≤ data.length) (hnz : ∀ x ∈ data.dropLast, x ≠ 0) :
    ∃ stats : GrowthStats, historical_growth_analysis data p = .ok stats ∧
      ∀ g : List ℚ,
        g = (List.range (data.length - 1)).map
          (fun i => (data.getD (i + 1) 0 - data.getD i 0) / data.getD i 0) →
        (stats.mean_growth = g.sum / g.length ∧
         (∀ s : List ℚ, g.Perm s → s.Sorted (· ≤ ·) →
            stats.median_growth =
              if s.length % 2 = 1 then s.getD (s.length / 2) 0
              else (s.getD (s.length / 2 - 1) 0 + s.getD (s.length / 2) 0) / 2) ∧
         stats.std_dev_sq =
           (g.map (fun x => (x - g.sum / g.length) ^ 2)).sum / g.length ∧
         stats.min_growth ∈ g ∧ (∀ x ∈ g, stats.min_growth ≤ x) ∧
         stats.max_growth ∈ g ∧ (∀ x ∈ g, x ≤ stats.max_growth)) := by
  refine ⟨_, historical_growth_analysis_ok data p hlen, ?_⟩
  rintro g rfl
  rw [← growth_rates_eq_range_map]
  have hne : growth_rates data ≠ [] := growth_rates_ne_nil data hlen
  exact ⟨rfl,
    fun s hp hs => npMedian_eq_of_sorted (growth_rates data) s hp hs,
    rfl,
    npMin_mem _ hne, npMin_le _,
    npMax_mem _ hne, le_npMax _⟩

theorem historical_growth_analysis_spec_witness :
    2 ≤ ([100, 110, 125] : List ℚ).length ∧
    (∀ x ∈ ([100, 110, 125] : List ℚ).dropLast, x ≠ 0) ∧
    (∃ stats : GrowthStats,
      historical_growth_analysis [100, 110, 125] 5 = .ok stats ∧
      ∀ g : List ℚ,
        g = (List.range (([100, 110, 125] : List ℚ).length - 1)).map
          (fun i => (([100, 110, 125] : List ℚ).getD (i + 1) 0 -
              ([100, 110, 125] : List ℚ).getD i 0) /
            ([100, 110, 125] : List ℚ).getD i 0) →
        (stats.mean_growth = g.sum / g.length ∧
         (∀ s : List ℚ, g.Perm s → s.Sorted (· ≤ ·) →
            stats.median_growth =
              if s.length % 2 = 1 then s.getD (s.length / 2) 0
              else (s.getD (s.length / 2 - 1) 0 + s.getD (s.length / 2) 0) / 2) ∧
         stats.std_dev_sq =
           (g.map (fun x => (x - g.sum / g.length) ^ 2)).sum / g.length ∧
         stats.min_growth ∈ g ∧ (∀ x ∈ g, stats.min_growth ≤ x) ∧
         stats.max_growth ∈ g ∧ (∀ x ∈ g, x ≤ stats.max_growth))) :=
  ⟨by norm_num, by norm_num,
   historical_growth_analysis_spec [100, 110, 125] 5 (by norm_num) (by norm_num)⟩

/-- C6: for nonnegative capital values with positive total, the WACC lies
between `min(cost_of_equity, cost_of_debt*(1 - tax_rate))` and
`max(cost_of_equity, cost_of_debt*(1 - tax_rate))`. -/
theorem calculate_wacc_bounded (e d ce cd t : ℚ)
    (he : 0 ≤ e) (hd : 0 ≤ d) (hsum : 0 < e + d) :
    min ce (cd * (1 - t)) ≤ calculate_wacc e d ce cd t ∧
    calculate_wacc e d ce cd t ≤ max ce (cd * (1 - t)) := by
  have hw : 0 ≤ e / (e + d) := div_nonneg he hsum.le
  have hu : 0 ≤ d / (e + d) := div_nonneg hd hsum.le
  have hone : e / (e + d) + d / (e + d) = 1 := by
    rw [div_add_div_same, div_self hsum.ne']
  have hval : calculate_wacc e d ce cd t
      = (e / (e + d)) * ce + (d / (e + d)) * (cd * (1 - t)) := by
    rw [calculate_wacc]
    ring
  constructor
  · calc min ce (cd * (1 - t))
        = (e / (e + d)) * min ce (cd * (1 - t))
          + (d / (e + d)) * min ce (cd * (1 - t)) := by
          rw [← add_mul, hone, one_mul]
      _ ≤ (e / (e + d)) * ce + (d / (e + d)) * (cd * (1 - t)) :=
          add_le_add (mul_le_mul_of_nonneg_left (min_le_left _ _) hw)
            (mul_le_mul_of_nonneg_left (min_le_right _ _) hu)
      _ = calculate_wacc e d ce cd t := hval.symm
  · calc calculate_wacc e d ce cd t
        = (e / (e + d)) * ce + (d / (e + d)) * (cd * (1 - t)) := hval
      _ ≤ (e / (e + d)) * max ce (cd * (1 - t))
          + (d / (e + d)) * max ce (cd * (1 - t)) :=
          add_le_add (mul_le_mul_of_nonneg_left (le_max_left _ _) hw)
            (mul_le_mul_of_nonneg_left (le_max_right _ _) hu)
      _ = max ce (cd * (1 - t)) := by rw [← add_mul, hone, one_mul]

theorem calculate_wacc_bounded_witness :
    (0 : ℚ) ≤ 2 ∧ (0 : ℚ) ≤ 1 ∧ (0 : ℚ) < 2 + 1 ∧
    (min (1/10 : ℚ) ((1/20) * (1 - 1/4)) ≤ calculate_wacc 2 1 (1/10) (1/20) (1/4) ∧
     calculate_wacc 2 1 (1/10) (1/20) (1/4) ≤ max (1/10 : ℚ) ((1/20) * (1 - 1/4))) :=
  ⟨by norm_num, by norm_num, by norm_num,
   calculate_wacc_bounded 2 1 (1/10) (1/20) (1/4) (by norm_num) (by norm_num) (by norm_num)⟩

/-- C10: for data of length ≥ 2 whose first `n-1` elements are nonzero, the
returned statistics satisfy `min_growth ≤ mean_growth ≤ max_growth` and
`min_growth ≤ median_growth ≤ max_growth`. -/
theorem historical_growth_analysis_bounds (data : List ℚ) (p : ℕ)
    (hlen : 2 ≤ data.length) (hnz : ∀ x ∈ data.dropLast, x ≠ 0) :
    ∃ stats : GrowthStats, historical_growth_analysis data p = .ok stats ∧
      stats.min_growth ≤ stats.mean_growth ∧
      stats.mean_growth ≤ stats.max_growth ∧
      stats.min_growth ≤ stats.median_growth ∧
      stats.median_growth ≤ stats.max_growth := by
  refine ⟨_, historical_growth_analysis_ok data p hlen, ?_, ?_, ?_, ?_⟩
  all_goals
    have hne : growth_rates data ≠ [] := growth_rates_ne_nil data hlen
  · exact npMin_le_npMean _ hne
  · exact npMean_le_npMax _ hne
  · exact (npMedian_bounds _ hne).1
  · exact (npMedian_bounds _ hne).2

theorem historical_growth_analysis_bounds_witness :
    2 ≤ ([100, 110, 125] : List ℚ).length ∧
    (∀ x ∈ ([100, 110, 125] : List ℚ).dropLast, x ≠ 0) ∧
    (∃ stats : GrowthStats,
      historical_growth_analysis [100, 110, 125] 7 = .ok stats ∧
      stats.min_growth ≤ stats.mean_growth ∧
      stats.mean_growth ≤ stats.max_growth ∧
      stats.min_growth ≤ stats.median_growth ∧
      stats.median_growth ≤ stats.max_growth) :=
  ⟨by norm_num, by norm_num,
   historical_growth_analysis_bounds [100, 110, 125] 7 (by norm_num) (by norm_num)⟩

end FinancialModels
